import Mathlib

/-!
Verification of the mecanum_drive_controller control core
(src/src/mecanum_drive_controller.cpp and its header).

Modelling conventions:
* An IEEE-754 double is modelled by the type `Fl`: either the NaN sentinel or
  an exact rational value.  All arithmetic performed by the controller on
  non-NaN values is exact rational arithmetic in this model.
* ROS times and durations (`rclcpp::Time`, `rclcpp::Duration`) are modelled as
  rationals (seconds); subtraction of times yields a duration, and duration
  comparison is the rational order, exactly as in rclcpp.
* The static yaw offset `base_frame_offset.theta` enters the computation of
  `update_and_write_commands` only through the rotation matrix produced by
  `tf2::Quaternion::setRPY(0, 0, theta)` followed by `tf2::Matrix3x3`; that
  matrix acts on the plane as ((cos t, -sin t), (sin t, cos t)).  The model
  therefore carries the two matrix entries `ct` (= cos theta) and
  `st` (= sin theta) as the geometry parameters; theta = 0 corresponds to
  ct = 1, st = 0.
* The realtime buffer `input_ref_` holds one latest message; each embedded
  operation takes the currently visible message and returns the new one,
  making the in-place mutations of the C++ code explicit state passing.
-/

/-- Model of a C++ double: NaN or an exact value. -/
inductive Fl where
  | nan : Fl
  | val : ℚ → Fl
deriving DecidableEq, Repr

/-- Model of std::isnan. -/
def Fl.isNaN : Fl → Bool
  | .nan => true
  | .val _ => false

/-- Model of controller_interface::return_type. -/
inductive return_type where
  | OK : return_type
  | ERROR : return_type
deriving DecidableEq, Repr

/-- Model of controller_interface::CallbackReturn. -/
inductive CallbackReturn where
  | SUCCESS : CallbackReturn
  | ERROR : CallbackReturn
  | FAILURE : CallbackReturn
deriving DecidableEq, Repr

/-- Model of ControllerReferenceMsg (geometry_msgs::msg::TwistStamped):
the header stamp (seconds, 0 meaning the unset stamp sec==0 and nanosec==0)
and the six twist components. -/
structure RefMsg where
  stamp : ℚ
  linear_x : Fl
  linear_y : Fl
  linear_z : Fl
  angular_x : Fl
  angular_y : Fl
  angular_z : Fl
deriving DecidableEq, Repr

/-- The three exported reference interfaces
reference_interfaces_[0], [1], [2] (linear/x, linear/y, angular/z). -/
structure RefSlots where
  x : Fl
  y : Fl
  z : Fl
deriving DecidableEq, Repr

/-- reset_controller_reference_msg (lines 12-22): stamp the message with the
node clock and set every twist component to quiet_NaN, producing the stop
sentinel. -/
def reset_controller_reference_msg (now : ℚ) : RefMsg :=
  { stamp := now
    linear_x := .nan
    linear_y := .nan
    linear_z := .nan
    angular_x := .nan
    angular_y := .nan
    angular_z := .nan }

/-- is_msg_valid (lines 25-28): true when none of twist.linear.x,
twist.linear.y, twist.angular.z is NaN. -/
def is_msg_valid (msg : RefMsg) : Bool :=
  !msg.linear_x.isNaN && !msg.linear_y.isNaN && !msg.angular_z.isNaN

/-- Result of one call to update_reference_from_subscribers: the message now
held by input_ref_ (the C++ code mutates it in place through the realtime
buffer pointer), the reference interfaces, and the return value. -/
structure SubUpdateResult where
  input_ref : RefMsg
  reference_interfaces : RefSlots
  ret : return_type
deriving DecidableEq, Repr

/-- update_reference_from_subscribers (lines 175-212).  Arguments: the
configured ref_timeout_, the cycle time, the message visible in input_ref_,
and the current reference interfaces. -/
def update_reference_from_subscribers (ref_timeout : ℚ) (time : ℚ)
    (current_ref : RefMsg) (refs : RefSlots) : SubUpdateResult :=
  let age_of_last_command := time - current_ref.stamp
  let is_msg_ok := is_msg_valid current_ref
  if !is_msg_ok then
    { input_ref := current_ref, reference_interfaces := refs, ret := .OK }
  else if age_of_last_command ≤ ref_timeout then
    { input_ref := current_ref
      reference_interfaces :=
        { x := current_ref.linear_x
          y := current_ref.linear_y
          z := current_ref.angular_z }
      ret := .OK }
  else if ref_timeout = 0 then
    { input_ref :=
        { current_ref with
          linear_x := .nan, linear_y := .nan, angular_z := .nan }
      reference_interfaces :=
        { x := current_ref.linear_x
          y := current_ref.linear_y
          z := current_ref.angular_z }
      ret := .OK }
  else
    { input_ref :=
        { current_ref with
          linear_x := .nan, linear_y := .nan, angular_z := .nan }
      reference_interfaces := { x := .val 0, y := .val 0, z := .val 0 }
      ret := .OK }

/-- on_activate (lines 159-165): reset the message held by input_ref_ to the
stop sentinel and report SUCCESS. -/
def on_activate (_buffered : RefMsg) (now : ℚ) : RefMsg × CallbackReturn :=
  (reset_controller_reference_msg now, .SUCCESS)

/-- reference_callback (lines 311-334).  Returns the pair (message now in
input_ref_, state of the received message object after the callback): a
zero stamp is replaced by the current time; an in-time message (or any
message when the timeout is configured to zero) is written into the buffer;
an expired message is not written, and the received object is reset to the
stop sentinel. -/
def reference_callback (ref_timeout : ℚ) (now : ℚ) (buffered : RefMsg)
    (msg : RefMsg) : RefMsg × RefMsg :=
  let msg := if msg.stamp = 0 then { msg with stamp := now } else msg
  let age_of_last_command := now - msg.stamp
  if ref_timeout = 0 ∨ age_of_last_command ≤ ref_timeout then
    (msg, msg)
  else
    (buffered, reset_controller_reference_msg now)

/-- Wheel index constants from the header (enum WheelIndex): the canonical
ordering of the four command/state interfaces. -/
def FRONT_LEFT : Fin 4 := 0

/-- See FRONT_LEFT. -/
def FRONT_RIGHT : Fin 4 := 1

/-- See FRONT_LEFT. -/
def REAR_RIGHT : Fin 4 := 2

/-- See FRONT_LEFT. -/
def REAR_LEFT : Fin 4 := 3

/-- The kinematics parameters read by update_and_write_commands
(params_.kinematics): ct and st are the cosine and sine of
base_frame_offset.theta as produced by setRPY(0,0,theta) followed by
tf2::Matrix3x3 (theta = 0 gives ct = 1, st = 0), offset_x and offset_y are
base_frame_offset.x and .y, wheels_radius is the wheel radius and sum_k is
sum_of_robot_center_projection_on_X_Y_axis. -/
structure Kinematics where
  ct : ℚ
  st : ℚ
  offset_x : ℚ
  offset_y : ℚ
  wheels_radius : ℚ
  sum_k : ℚ
deriving DecidableEq, Repr

/-- Planar action of the rotation matrix tf2::Matrix3x3(setRPY(0,0,theta))
on a vector (vx, vy, 0): the first two components of the product. -/
def rotZ (ct st vx vy : ℚ) : ℚ × ℚ :=
  (ct * vx - st * vy, st * vx + ct * vy)

/-- The telemetry record filled under the trylock in update_and_write_commands
(lines 285-302). -/
structure StateMsg where
  stamp : ℚ
  front_left_wheel_velocity : Fl
  front_right_wheel_velocity : Fl
  back_right_wheel_velocity : Fl
  back_left_wheel_velocity : Fl
  reference_linear_x : Fl
  reference_linear_y : Fl
  reference_angular_z : Fl
deriving DecidableEq, Repr

/-- Result of one call to update_and_write_commands: the four command
interfaces (indexed by WheelIndex), the three member variables
velocity_in_center_frame_{linear_x_, linear_y_, angular_z_}, the telemetry
record published this cycle (none when the trylock failed), the reference
interfaces after the call, and the return value. -/
structure CmdUpdateResult where
  command_interfaces : Fin 4 → Fl
  center_linear_x : Fl
  center_linear_y : Fl
  center_angular_z : Fl
  published : Option StateMsg
  reference_interfaces : RefSlots
  ret : return_type

/-- update_and_write_commands (lines 214-309).  Arguments: the kinematics
parameters, the reference interfaces at entry, the measured wheel
velocities (state_interfaces_, by WheelIndex), the member variables
velocity_in_center_frame_* from the previous cycle (left unchanged on the
NaN branch), whether controller_state_publisher_->trylock() succeeds, and
the node clock value used for the telemetry stamp. -/
def update_and_write_commands (k : Kinematics) (refs : RefSlots)
    (state_interfaces : Fin 4 → Fl)
    (center_prev_x center_prev_y center_prev_z : Fl)
    (can_publish : Bool) (now : ℚ) : CmdUpdateResult :=
  let step :=
    match refs.x, refs.y, refs.z with
    | .val rx, .val ry, .val rz =>
      let vel_in_base := rotZ k.ct k.st rx ry
      let cx := vel_in_base.1 + k.offset_y * rz
      let cy := vel_in_base.2 - k.offset_x * rz
      let cz := rz
      let wheel_front_left_vel :=
        1 / k.wheels_radius * (cx - cy - k.sum_k * cz)
      let wheel_front_right_vel :=
        1 / k.wheels_radius * (cx + cy + k.sum_k * cz)
      let wheel_rear_right_vel :=
        1 / k.wheels_radius * (cx - cy + k.sum_k * cz)
      let wheel_rear_left_vel :=
        1 / k.wheels_radius * (cx + cy - k.sum_k * cz)
      let cmds : Fin 4 → Fl := fun i =>
        if i = FRONT_LEFT then .val wheel_front_left_vel
        else if i = FRONT_RIGHT then .val wheel_front_right_vel
        else if i = REAR_RIGHT then .val wheel_rear_right_vel
        else .val wheel_rear_left_vel
      (cmds, Fl.val cx, Fl.val cy, Fl.val cz)
    | _, _, _ =>
      (fun _ => Fl.val 0, center_prev_x, center_prev_y, center_prev_z)
  let published :=
    if can_publish then
      some
        { stamp := now
          front_left_wheel_velocity := state_interfaces FRONT_LEFT
          front_right_wheel_velocity := state_interfaces FRONT_RIGHT
          back_right_wheel_velocity := state_interfaces REAR_RIGHT
          back_left_wheel_velocity := state_interfaces REAR_LEFT
          reference_linear_x := refs.x
          reference_linear_y := refs.y
          reference_angular_z := refs.z }
    else none
  { command_interfaces := step.1
    center_linear_x := step.2.1
    center_linear_y := step.2.2.1
    center_angular_z := step.2.2.2
    published := published
    reference_interfaces := { x := .nan, y := .nan, z := .nan }
    ret := .OK }

/-- Helper: the two expiry branches of update_reference_from_subscribers
(zero-timeout pass and STOP) both overwrite the buffered command's
linear.x, linear.y, angular.z with NaN in place. -/
theorem update_ref_expired_consumes (ref_timeout time : ℚ) (m : RefMsg)
    (refs : RefSlots) (hvalid : is_msg_valid m = true)
    (hage : ¬ time - m.stamp ≤ ref_timeout) :
    (update_reference_from_subscribers ref_timeout time m refs).input_ref
      = { m with linear_x := .nan, linear_y := .nan, angular_z := .nan } := by
  simp only [update_reference_from_subscribers]
  rw [if_neg (by simp [hvalid]), if_neg hage]
  split <;> rfl

/-- Helper: an invalid buffered message (some NaN among x, y, angular z)
makes update_reference_from_subscribers a no-op returning OK. -/
theorem update_ref_invalid_noop (ref_timeout time : ℚ) (m : RefMsg)
    (refs : RefSlots) (hinv : is_msg_valid m = false) :
    update_reference_from_subscribers ref_timeout time m refs
      = { input_ref := m, reference_interfaces := refs, ret := .OK } := by
  simp [update_reference_from_subscribers, hinv]

/-- Helper: after the expiry branches the buffered message is invalid. -/
theorem update_ref_consumed_invalid (m : RefMsg) :
    is_msg_valid { m with linear_x := .nan, linear_y := .nan,
                          angular_z := .nan } = false := by
  simp [is_msg_valid, Fl.isNaN]

/-- C3: a buffered command with a NaN among linear_x, linear_y, angular_z
makes update_reference_from_subscribers return OK and leave the reference
slots (and the buffered message) exactly as they were. -/
theorem C3_nan_command_is_ignored (ref_timeout time : ℚ) (m : RefMsg)
    (refs : RefSlots)
    (h : m.linear_x = Fl.nan ∨ m.linear_y = Fl.nan ∨ m.angular_z = Fl.nan) :
    update_reference_from_subscribers ref_timeout time m refs
      = { input_ref := m, reference_interfaces := refs, ret := .OK } := by
  have hinv : is_msg_valid m = false := by
    rcases h with h | h | h <;> simp [is_msg_valid, h, Fl.isNaN]
  exact update_ref_invalid_noop ref_timeout time m refs hinv

/-- Witness for C3 at a concrete input. -/
theorem C3_nan_command_is_ignored_witness :
    update_reference_from_subscribers 1 5
        { stamp := 0, linear_x := .nan, linear_y := .val 2, linear_z := .nan,
          angular_x := .nan, angular_y := .nan, angular_z := .val 3 }
        { x := .val 7, y := .val 8, z := .val 9 }
      = { input_ref :=
            { stamp := 0, linear_x := .nan, linear_y := .val 2,
              linear_z := .nan, angular_x := .nan, angular_y := .nan,
              angular_z := .val 3 }
          reference_interfaces := { x := .val 7, y := .val 8, z := .val 9 }
          ret := .OK } :=
  C3_nan_command_is_ignored 1 5 _ _ (Or.inl rfl)

/-- C2: a valid buffered command, a strictly positive timeout and an age
strictly beyond the timeout make update_reference_from_subscribers write
exactly zero (never NaN) into the three reference slots. -/
theorem C2_stop_branch_zeroes_reference_slots (ref_timeout time : ℚ)
    (m : RefMsg) (refs : RefSlots) (hvalid : is_msg_valid m = true)
    (hpos : 0 < ref_timeout) (hage : ref_timeout < time - m.stamp) :
    (update_reference_from_subscribers ref_timeout time m refs).reference_interfaces
      = { x := .val 0, y := .val 0, z := .val 0 } := by
  have h1 : ¬ time - m.stamp ≤ ref_timeout := not_le.mpr hage
  have h2 : ref_timeout ≠ 0 := ne_of_gt hpos
  simp [update_reference_from_subscribers, hvalid, h1, h2]

/-- Witness for C2 at a concrete input. -/
theorem C2_stop_branch_zeroes_reference_slots_witness :
    (update_reference_from_subscribers 1 5
        { stamp := 0, linear_x := .val 2, linear_y := .val 3, linear_z := .nan,
          angular_x := .nan, angular_y := .nan, angular_z := .val 4 }
        { x := .nan, y := .nan, z := .nan }).reference_interfaces
      = { x := .val 0, y := .val 0, z := .val 0 } :=
  C2_stop_branch_zeroes_reference_slots 1 5 _ _ rfl (by norm_num)
    (show (1 : ℚ) < 5 - 0 by norm_num)

/-- C1 counterexample: with ref_timeout = 0 and a valid buffered command of
age 0, the command passes through the in-time branch without being marked
consumed, and the very same buffered value is accepted again as fresh on
the next cycle without any new publish — contradicting the claim that
after acceptance the stored command is always marked non-repeating. -/
theorem C1_counterexample_zero_timeout_reaccepted :
    (update_reference_from_subscribers 0 0
        { stamp := 0, linear_x := .val 1, linear_y := .val 2, linear_z := .nan,
          angular_x := .nan, angular_y := .nan, angular_z := .val 3 }
        { x := .nan, y := .nan, z := .nan }).reference_interfaces
      = { x := .val 1, y := .val 2, z := .val 3 } ∧
    (update_reference_from_subscribers 0 0
        { stamp := 0, linear_x := .val 1, linear_y := .val 2, linear_z := .nan,
          angular_x := .nan, angular_y := .nan, angular_z := .val 3 }
        { x := .nan, y := .nan, z := .nan }).input_ref
      = { stamp := 0, linear_x := .val 1, linear_y := .val 2, linear_z := .nan,
          angular_x := .nan, angular_y := .nan, angular_z := .val 3 } ∧
    (update_reference_from_subscribers 0 1
        (update_reference_from_subscribers 0 0
            { stamp := 0, linear_x := .val 1, linear_y := .val 2,
              linear_z := .nan, angular_x := .nan, angular_y := .nan,
              angular_z := .val 3 }
            { x := .nan, y := .nan, z := .nan }).input_ref
        { x := .nan, y := .nan, z := .nan }).reference_interfaces
      = { x := .val 1, y := .val 2, z := .val 3 } := by
  refine ⟨?_, ?_, ?_⟩ <;>
    norm_num [update_reference_from_subscribers, is_msg_valid, Fl.isNaN]

/-- C1 (amended): with ref_timeout = 0 a valid buffered command is passed
into the reference slots regardless of its age; when its age is strictly
positive (the zero-timeout branch) the buffered command is additionally
marked consumed, and every later cycle leaves the reference slots
untouched until a new publish; a command of age at most zero passes
through the in-time branch without being marked. -/
theorem C1_amended_zero_timeout_pass (time : ℚ) (m : RefMsg)
    (refs : RefSlots) (hvalid : is_msg_valid m = true) :
    (update_reference_from_subscribers 0 time m refs).reference_interfaces
      = { x := m.linear_x, y := m.linear_y, z := m.angular_z } ∧
    (0 < time - m.stamp →
      (update_reference_from_subscribers 0 time m refs).input_ref
        = { m with linear_x := .nan, linear_y := .nan, angular_z := .nan } ∧
      ∀ (t : ℚ) (refs' : RefSlots),
        update_reference_from_subscribers 0 t
            (update_reference_from_subscribers 0 time m refs).input_ref refs'
          = { input_ref :=
                (update_reference_from_subscribers 0 time m refs).input_ref
              reference_interfaces := refs'
              ret := .OK }) ∧
    (time - m.stamp ≤ 0 →
      (update_reference_from_subscribers 0 time m refs).input_ref = m) := by
  by_cases hage : time - m.stamp ≤ 0
  · refine ⟨?_, fun hpos => absurd hage (not_le.mpr hpos), fun _ => ?_⟩
    · simp [update_reference_from_subscribers, hvalid, hage]
    · simp [update_reference_from_subscribers, hvalid, hage]
  · have hkey := update_ref_expired_consumes 0 time m refs hvalid hage
    refine ⟨?_, fun _ => ⟨hkey, fun t refs' => ?_⟩, fun h => absurd h hage⟩
    · simp [update_reference_from_subscribers, hvalid, hage]
    · rw [hkey]
      exact update_ref_invalid_noop 0 t _ refs' (update_ref_consumed_invalid m)

/-- Witness for the amended C1 at a concrete input. -/
theorem C1_amended_zero_timeout_pass_witness :
    (update_reference_from_subscribers 0 1
        { stamp := 0, linear_x := .val 1, linear_y := .val 2, linear_z := .nan,
          angular_x := .nan, angular_y := .nan, angular_z := .val 3 }
        { x := .nan, y := .nan, z := .nan }).reference_interfaces
      = { x := .val 1, y := .val 2, z := .val 3 } ∧
    (update_reference_from_subscribers 0 1
        { stamp := 0, linear_x := .val 1, linear_y := .val 2, linear_z := .nan,
          angular_x := .nan, angular_y := .nan, angular_z := .val 3 }
        { x := .nan, y := .nan, z := .nan }).input_ref
      = { stamp := 0, linear_x := .nan, linear_y := .nan, linear_z := .nan,
          angular_x := .nan, angular_y := .nan, angular_z := .nan } :=
  ⟨(C1_amended_zero_timeout_pass 1 _ _ (by rfl)).1,
   ((C1_amended_zero_timeout_pass 1 _ _ (by rfl)).2.1
      (show (0 : ℚ) < 1 - 0 by norm_num)).1⟩

/-- C10: whenever a valid buffered command is past the in-time check (the
STOP branch with positive timeout, or the zero-timeout pass branch), the
buffered command's linear.x, linear.y and angular.z are overwritten with
NaN in place, and with no new publish every subsequent cycle takes the
IGNORE path, leaving the reference slots untouched. -/
theorem C10_stop_emitted_at_most_once (ref_timeout time : ℚ) (m : RefMsg)
    (refs : RefSlots) (hvalid : is_msg_valid m = true)
    (hage : ¬ time - m.stamp ≤ ref_timeout) :
    (update_reference_from_subscribers ref_timeout time m refs).input_ref.linear_x
      = .nan ∧
    (update_reference_from_subscribers ref_timeout time m refs).input_ref.linear_y
      = .nan ∧
    (update_reference_from_subscribers ref_timeout time m refs).input_ref.angular_z
      = .nan ∧
    ∀ (t : ℚ) (refs' : RefSlots),
      update_reference_from_subscribers ref_timeout t
          (update_reference_from_subscribers ref_timeout time m refs).input_ref
          refs'
        = { input_ref :=
              (update_reference_from_subscribers ref_timeout time m refs).input_ref
            reference_interfaces := refs'
            ret := .OK } := by
  have hkey := update_ref_expired_consumes ref_timeout time m refs hvalid hage
  rw [hkey]
  refine ⟨rfl, rfl, rfl, fun t refs' => ?_⟩
  exact update_ref_invalid_noop ref_timeout t _ refs' (update_ref_consumed_invalid m)

/-- Witness for C10 at a concrete input. -/
theorem C10_stop_emitted_at_most_once_witness :
    (update_reference_from_subscribers 1 5
        { stamp := 0, linear_x := .val 2, linear_y := .val 3, linear_z := .nan,
          angular_x := .nan, angular_y := .nan, angular_z := .val 4 }
        { x := .nan, y := .nan, z := .nan }).input_ref.linear_x = .nan ∧
    update_reference_from_subscribers 1 9
        (update_reference_from_subscribers 1 5
            { stamp := 0, linear_x := .val 2, linear_y := .val 3,
              linear_z := .nan, angular_x := .nan, angular_y := .nan,
              angular_z := .val 4 }
            { x := .nan, y := .nan, z := .nan }).input_ref
        { x := .val 7, y := .val 8, z := .val 9 }
      = { input_ref :=
            (update_reference_from_subscribers 1 5
                { stamp := 0, linear_x := .val 2, linear_y := .val 3,
                  linear_z := .nan, angular_x := .nan, angular_y := .nan,
                  angular_z := .val 4 }
                { x := .nan, y := .nan, z := .nan }).input_ref
          reference_interfaces := { x := .val 7, y := .val 8, z := .val 9 }
          ret := .OK } :=
  ⟨(C10_stop_emitted_at_most_once 1 5 _ _ (by rfl)
      (show ¬ (5 : ℚ) - 0 ≤ 1 by norm_num)).1,
   (C10_stop_emitted_at_most_once 1 5 _ _ (by rfl)
      (show ¬ (5 : ℚ) - 0 ≤ 1 by norm_num)).2.2.2 9 _⟩

/-- C4: a NaN among the three reference interface values entering
update_and_write_commands forces all four command interface outputs to
exactly 0, never NaN. -/
theorem C4_nan_reference_forces_zero_outputs (k : Kinematics)
    (refs : RefSlots) (state_interfaces : Fin 4 → Fl) (cx cy cz : Fl)
    (can_publish : Bool) (now : ℚ)
    (h : refs.x = Fl.nan ∨ refs.y = Fl.nan ∨ refs.z = Fl.nan) :
    ∀ i : Fin 4,
      (update_and_write_commands k refs state_interfaces cx cy cz can_publish
        now).command_interfaces i = Fl.val 0 := by
  intro i
  rcases refs with ⟨x, y, z⟩
  cases x <;> cases y <;> cases z <;> simp_all <;> rfl

/-- Witness for C4 at a concrete input. -/
theorem C4_nan_reference_forces_zero_outputs_witness :
    (update_and_write_commands ⟨1, 0, 2, 3, 1, 1⟩
        { x := .val 5, y := .nan, z := .val 7 } (fun _ => .val 4)
        (.val 1) (.val 2) (.val 3) true 11).command_interfaces FRONT_LEFT
      = Fl.val 0 ∧
    (update_and_write_commands ⟨1, 0, 2, 3, 1, 1⟩
        { x := .val 5, y := .nan, z := .val 7 } (fun _ => .val 4)
        (.val 1) (.val 2) (.val 3) true 11).command_interfaces FRONT_RIGHT
      = Fl.val 0 ∧
    (update_and_write_commands ⟨1, 0, 2, 3, 1, 1⟩
        { x := .val 5, y := .nan, z := .val 7 } (fun _ => .val 4)
        (.val 1) (.val 2) (.val 3) true 11).command_interfaces REAR_RIGHT
      = Fl.val 0 ∧
    (update_and_write_commands ⟨1, 0, 2, 3, 1, 1⟩
        { x := .val 5, y := .nan, z := .val 7 } (fun _ => .val 4)
        (.val 1) (.val 2) (.val 3) true 11).command_interfaces REAR_LEFT
      = Fl.val 0 :=
  ⟨C4_nan_reference_forces_zero_outputs ⟨1, 0, 2, 3, 1, 1⟩ _ _ _ _ _ true 11
     (Or.inr (Or.inl rfl)) FRONT_LEFT,
   C4_nan_reference_forces_zero_outputs ⟨1, 0, 2, 3, 1, 1⟩ _ _ _ _ _ true 11
     (Or.inr (Or.inl rfl)) FRONT_RIGHT,
   C4_nan_reference_forces_zero_outputs ⟨1, 0, 2, 3, 1, 1⟩ _ _ _ _ _ true 11
     (Or.inr (Or.inl rfl)) REAR_RIGHT,
   C4_nan_reference_forces_zero_outputs ⟨1, 0, 2, 3, 1, 1⟩ _ _ _ _ _ true 11
     (Or.inr (Or.inl rfl)) REAR_LEFT⟩

/-- C5: for a non-NaN reference twist the four command interfaces receive,
in the canonical FRONT_LEFT, FRONT_RIGHT, REAR_RIGHT, REAR_LEFT order, the
wheel velocities (cx - cy - k wz)/r, (cx + cy + k wz)/r, (cx - cy + k wz)/r
and (cx + cy - k wz)/r computed from the center-frame twist, and in
particular vx = 1, vy = 0, wz = 0, r = 1, k = 0 (with zero frame offset)
yields (1, 1, 1, 1) while vx = 0, vy = 0, wz = 1, r = 1, k = 1 yields
(-1, 1, 1, -1). -/
theorem C5_inverse_kinematics_sign_law :
    (∀ (k : Kinematics) (rx ry rz : ℚ) (state_interfaces : Fin 4 → Fl)
        (cx cy cz : Fl) (can_publish : Bool) (now : ℚ),
      (update_and_write_commands k { x := .val rx, y := .val ry, z := .val rz }
          state_interfaces cx cy cz can_publish now).command_interfaces
            FRONT_LEFT
        = .val ((((rotZ k.ct k.st rx ry).1 + k.offset_y * rz)
            - ((rotZ k.ct k.st rx ry).2 - k.offset_x * rz)
            - k.sum_k * rz) / k.wheels_radius) ∧
      (update_and_write_commands k { x := .val rx, y := .val ry, z := .val rz }
          state_interfaces cx cy cz can_publish now).command_interfaces
            FRONT_RIGHT
        = .val ((((rotZ k.ct k.st rx ry).1 + k.offset_y * rz)
            + ((rotZ k.ct k.st rx ry).2 - k.offset_x * rz)
            + k.sum_k * rz) / k.wheels_radius) ∧
      (update_and_write_commands k { x := .val rx, y := .val ry, z := .val rz }
          state_interfaces cx cy cz can_publish now).command_interfaces
            REAR_RIGHT
        = .val ((((rotZ k.ct k.st rx ry).1 + k.offset_y * rz)
            - ((rotZ k.ct k.st rx ry).2 - k.offset_x * rz)
            + k.sum_k * rz) / k.wheels_radius) ∧
      (update_and_write_commands k { x := .val rx, y := .val ry, z := .val rz }
          state_interfaces cx cy cz can_publish now).command_interfaces
            REAR_LEFT
        = .val ((((rotZ k.ct k.st rx ry).1 + k.offset_y * rz)
            + ((rotZ k.ct k.st rx ry).2 - k.offset_x * rz)
            - k.sum_k * rz) / k.wheels_radius)) ∧
    (∀ i : Fin 4,
      (update_and_write_commands ⟨1, 0, 0, 0, 1, 0⟩
          { x := .val 1, y := .val 0, z := .val 0 } (fun _ => .nan)
          .nan .nan .nan false 0).command_interfaces i = .val 1) ∧
    ((update_and_write_commands ⟨1, 0, 0, 0, 1, 1⟩
          { x := .val 0, y := .val 0, z := .val 1 } (fun _ => .nan)
          .nan .nan .nan false 0).command_interfaces FRONT_LEFT
        = .val (-1) ∧
     (update_and_write_commands ⟨1, 0, 0, 0, 1, 1⟩
          { x := .val 0, y := .val 0, z := .val 1 } (fun _ => .nan)
          .nan .nan .nan false 0).command_interfaces FRONT_RIGHT
        = .val 1 ∧
     (update_and_write_commands ⟨1, 0, 0, 0, 1, 1⟩
          { x := .val 0, y := .val 0, z := .val 1 } (fun _ => .nan)
          .nan .nan .nan false 0).command_interfaces REAR_RIGHT
        = .val 1 ∧
     (update_and_write_commands ⟨1, 0, 0, 0, 1, 1⟩
          { x := .val 0, y := .val 0, z := .val 1 } (fun _ => .nan)
          .nan .nan .nan false 0).command_interfaces REAR_LEFT
        = .val (-1)) := by
  refine ⟨fun k rx ry rz si cx cy cz b now => ?_, ?_, ?_⟩
  · refine ⟨?_, ?_, ?_, ?_⟩ <;> exact congrArg Fl.val (by ring)
  · intro i
    fin_cases i <;> exact congrArg Fl.val (by norm_num [rotZ])
  · refine ⟨?_, ?_, ?_, ?_⟩ <;> exact congrArg Fl.val (by norm_num [rotZ])

/-- C6: the frame-offset transform computed by update_and_write_commands
rotates the planar reference velocity by the static yaw offset and then
adds offset_y * wz to the rotated x component and subtracts offset_x * wz
from the rotated y component, leaving wz unchanged; for theta = 0
(ct = 1, st = 0) and zero planar offset the transform is the identity. -/
theorem C6_center_offset_transform :
    (∀ (k : Kinematics) (rx ry rz : ℚ) (state_interfaces : Fin 4 → Fl)
        (cx cy cz : Fl) (can_publish : Bool) (now : ℚ),
      (update_and_write_commands k { x := .val rx, y := .val ry, z := .val rz }
          state_interfaces cx cy cz can_publish now).center_linear_x
        = .val ((rotZ k.ct k.st rx ry).1 + k.offset_y * rz) ∧
      (update_and_write_commands k { x := .val rx, y := .val ry, z := .val rz }
          state_interfaces cx cy cz can_publish now).center_linear_y
        = .val ((rotZ k.ct k.st rx ry).2 - k.offset_x * rz) ∧
      (update_and_write_commands k { x := .val rx, y := .val ry, z := .val rz }
          state_interfaces cx cy cz can_publish now).center_angular_z
        = .val rz) ∧
    (∀ (rx ry rz w s : ℚ) (state_interfaces : Fin 4 → Fl) (cx cy cz : Fl)
        (can_publish : Bool) (now : ℚ),
      (update_and_write_commands ⟨1, 0, 0, 0, w, s⟩
          { x := .val rx, y := .val ry, z := .val rz }
          state_interfaces cx cy cz can_publish now).center_linear_x
        = .val rx ∧
      (update_and_write_commands ⟨1, 0, 0, 0, w, s⟩
          { x := .val rx, y := .val ry, z := .val rz }
          state_interfaces cx cy cz can_publish now).center_linear_y
        = .val ry ∧
      (update_and_write_commands ⟨1, 0, 0, 0, w, s⟩
          { x := .val rx, y := .val ry, z := .val rz }
          state_interfaces cx cy cz can_publish now).center_angular_z
        = .val rz) := by
  constructor
  · intro k rx ry rz si cx cy cz b now
    exact ⟨rfl, rfl, rfl⟩
  · intro rx ry rz w s si cx cy cz b now
    refine ⟨?_, ?_, ?_⟩ <;> exact congrArg Fl.val (by norm_num [rotZ])

/-- C7: every invocation of update_and_write_commands ends with all three
reference interfaces set to NaN, regardless of the kinematics branch taken
and of whether the telemetry trylock succeeded. -/
theorem C7_reference_interfaces_reset_to_nan (k : Kinematics)
    (refs : RefSlots) (state_interfaces : Fin 4 → Fl) (cx cy cz : Fl)
    (can_publish : Bool) (now : ℚ) :
    (update_and_write_commands k refs state_interfaces cx cy cz can_publish
        now).reference_interfaces
      = { x := Fl.nan, y := Fl.nan, z := Fl.nan } := rfl

/-- C8: on_activate resets the buffered command to the stop sentinel (all
six twist components NaN, stamp = now) and reports SUCCESS, regardless of
any command buffered before activation. -/
theorem C8_on_activate_stop_sentinel (buffered : RefMsg) (now : ℚ) :
    (on_activate buffered now).1.stamp = now ∧
    (on_activate buffered now).1.linear_x = Fl.nan ∧
    (on_activate buffered now).1.linear_y = Fl.nan ∧
    (on_activate buffered now).1.linear_z = Fl.nan ∧
    (on_activate buffered now).1.angular_x = Fl.nan ∧
    (on_activate buffered now).1.angular_y = Fl.nan ∧
    (on_activate buffered now).1.angular_z = Fl.nan ∧
    (on_activate buffered now).2 = CallbackReturn.SUCCESS :=
  ⟨rfl, rfl, rfl, rfl, rfl, rfl, rfl, rfl⟩

/-- C9: an inbound command whose stamp is set and whose age at receipt
exceeds a non-zero configured timeout is rejected by reference_callback:
the buffered value is left unchanged and the received message object is
converted to the stop sentinel; a command within the timeout, or any
command under a zero configured timeout, replaces the buffered value. -/
theorem C9_reference_callback_rejects_expired (ref_timeout now : ℚ)
    (buffered msg : RefMsg) (hstamp : msg.stamp ≠ 0) :
    ((ref_timeout ≠ 0 ∧ ref_timeout < now - msg.stamp) →
      reference_callback ref_timeout now buffered msg
        = (buffered, reset_controller_reference_msg now)) ∧
    ((ref_timeout = 0 ∨ now - msg.stamp ≤ ref_timeout) →
      (reference_callback ref_timeout now buffered msg).1 = msg) := by
  constructor
  · rintro ⟨h0, hage⟩
    simp only [reference_callback, if_neg hstamp]
    rw [if_neg]
    push_neg
    exact ⟨h0, hage⟩
  · intro h
    simp only [reference_callback, if_neg hstamp]
    rw [if_pos h]

/-- Witness for C9 at a concrete input: both the rejection of an expired
message and the acceptance of an in-time one. -/
theorem C9_reference_callback_rejects_expired_witness :
    reference_callback 1 10 (reset_controller_reference_msg 4)
        { stamp := 2, linear_x := .val 1, linear_y := .val 2, linear_z := .nan,
          angular_x := .nan, angular_y := .nan, angular_z := .val 3 }
      = (reset_controller_reference_msg 4, reset_controller_reference_msg 10) ∧
    (reference_callback 1 10 (reset_controller_reference_msg 4)
        { stamp := 10, linear_x := .val 1, linear_y := .val 2, linear_z := .nan,
          angular_x := .nan, angular_y := .nan, angular_z := .val 3 }).1
      = { stamp := 10, linear_x := .val 1, linear_y := .val 2, linear_z := .nan,
          angular_x := .nan, angular_y := .nan, angular_z := .val 3 } :=
  ⟨(C9_reference_callback_rejects_expired 1 10 _ _
      (show (2 : ℚ) ≠ 0 by norm_num)).1
      ⟨by norm_num, show (1 : ℚ) < 10 - 2 by norm_num⟩,
   (C9_reference_callback_rejects_expired 1 10 _ _
      (show (10 : ℚ) ≠ 0 by norm_num)).2
      (Or.inr (show (10 : ℚ) - 10 ≤ 1 by norm_num))⟩
